import Mathlib

/-!
Verification of the shutdown monitor program (src/shutdown_monitor.py) of the
power-monitor repository.  The script is shallowly embedded: every observable
action (a print, an os.system call, a sleep, a GPIO device construction or
write) becomes an `Event`; a run of the poll loop is a function from the
sampled button states to the emitted event trace together with the way the
run ends; the configuration environment is a key/value lookup.  Durations are
tracked in exact milliseconds (the script computes them as floats such as
`20 / 1000.0`, which denote the same exact quantities).
-/

namespace PowerMonitor

/-- Name of the environment variable holding the post-kill delay
(line 15 of the script). -/
def kpkill_delay : String := "OPENCPN_PKILL_DELAY"

/-- Name of the environment variable holding the target user
(line 16 of the script). -/
def kpkill_user : String := "OPENCPN_USER"

/-- GPIO pin number of the shutdown input line (line 19). -/
def shutdown_pin : Nat := 22

/-- GPIO pin number of the running-heartbeat output line (line 20). -/
def mcu_running_pin : Nat := 23

/-- Minimum shutdown pulse duration in milliseconds (line 21);
passed to the button as `hold_time = 600 / 1000.0` seconds. -/
def shutdown_pulse_minimum : Nat := 600

/-- Poll sleep while a press is in progress, in milliseconds (line 22);
used as `shutdown_wait_delay / 1000.0` seconds. -/
def shutdown_wait_delay : Nat := 20

/-- Joint value of the two button properties the loop reads each iteration:
`is_pressed` and `is_held`.  gpiozero never reports held without pressed,
so only three combinations occur. -/
inductive ButtonSample
  | notPressed
  | pressedNotHeld
  | pressedHeld
  deriving DecidableEq

/-- Python exceptions that the embedded fragments can raise. -/
inductive PyError
  | attributeError (attr : String)
  | valueError (msg : String)
  deriving DecidableEq

/-- How a run of the embedded program ends: a `sys.exit(code)`,
an uncaught exception, or (when the supplied sample list runs out)
still looping. -/
inductive PyResult
  | exited (code : Nat)
  | loopPending
  | uncaught (e : PyError)
  deriving DecidableEq

/-- Observable actions of the script, in program order.  `outputOff` is never
emitted by any embedded fragment; it is included so that the statement that
the heartbeat is never deasserted is about a representable event. -/
inductive Event
  | printed (msg : String)
  | buttonInit (pin : Nat) (activeState : Bool) (holdTimeMs : Nat)
  | outputInit (pin : Nat) (activeHigh : Bool) (initialValue : Bool)
  | outputOn (pin : Nat)
  | outputOff (pin : Nat)
  | system (cmd : String)
  | sleptMs (ms : Nat)
  deriving DecidableEq

/-- Configuration source: an environment-like key/value lookup (os.environ). -/
structure Env where
  lookup : String → Option String

/-- Membership test on the environment, the meaning of `os.environ.has_key`
under Python 2 (the dialect the call was written for).  Under the Python 3
interpreter named by the shebang the attribute does not exist; see
`py3GetAttr` and `py3Main`. -/
def has_key (env : Env) (k : String) : Bool :=
  (env.lookup k).isSome

/-- Value of a decimal digit character accumulated onto `acc`; any
non-digit character fails the parse. -/
def parseNatAux : List Char → Nat → Option Nat
  | [], acc => some acc
  | c :: rest, acc =>
    if c.isDigit then parseNatAux rest (acc * 10 + (c.toNat - 48))
    else none

/-- Decimal parse of a non-empty digit string. -/
def parseNat : List Char → Option Nat
  | [] => none
  | cs => parseNatAux cs 0

/-- Meaning of `int(s)`: parse a decimal integer, raising ValueError when the
string does not parse.  (Python also strips surrounding whitespace and allows
a leading plus sign and underscores; no claim depends on those inputs.) -/
def pyInt (s : String) : Except PyError Int :=
  match s.data with
  | '-' :: rest =>
    match parseNat rest with
    | some n => Except.ok (-(n : Int))
    | none => Except.error (PyError.valueError "invalid literal for int")
  | cs =>
    match parseNat cs with
    | some n => Except.ok (n : Int)
    | none => Except.error (PyError.valueError "invalid literal for int")

/-- Command issued at line 57: `"/usr/bin/pkill -u ".format` applied to the
configured user. -/
def pkillCmd (user : String) : String :=
  "/usr/bin/pkill -u " ++ user ++ " opencpn"

/-- Command issued at line 60. -/
def poweroffCmd : String :=
  "/usr/bin/sudo /sbin/poweroff"

/-- Message printed at line 56 when the hold is detected. -/
def heldMsg : String :=
  "Detected shutdown signal, powering off.."

/-- Shutdown sequence of lines 56-61, entered when `is_held` reads true:
print the message, issue the pkill (its result is ignored), sleep the
configured delay (`time.sleep` takes seconds, so `delay` seconds are
`1000 * delay` milliseconds; a negative delay makes `time.sleep` raise
ValueError), issue the poweroff (its result is ignored), `sys.exit(0)`. -/
def triggerSeq (delay : Int) (user : String) : List Event × PyResult :=
  if delay < 0 then
    ([Event.printed heldMsg, Event.system (pkillCmd user)],
     PyResult.uncaught (PyError.valueError "sleep length must be non-negative"))
  else
    ([Event.printed heldMsg, Event.system (pkillCmd user),
      Event.sleptMs (1000 * delay.toNat), Event.system poweroffCmd],
     PyResult.exited 0)

/-- Sleep emitted by one non-triggering loop iteration: `sleep_interval` is
reassigned on every path before `time.sleep` runs, to 1 second when not
pressed and to `shutdown_wait_delay / 1000.0` seconds when pressed.  The
`pressedHeld` case never reaches the sleep (the trigger exits first); the
value given here is the one the assignment at line 54 would have produced. -/
def iterSleep : ButtonSample → Event
  | ButtonSample.notPressed => Event.sleptMs 1000
  | ButtonSample.pressedNotHeld => Event.sleptMs shutdown_wait_delay
  | ButtonSample.pressedHeld => Event.sleptMs shutdown_wait_delay

/-- Poll loop of lines 51-64, driven by the list of button samples the
successive iterations read.  Each iteration: when pressed and held, run the
shutdown sequence (the loop never resumes); otherwise emit the reassigned
sleep and continue.  An exhausted sample list leaves the loop still pending. -/
def pollLoop (delay : Int) (user : String) : List ButtonSample → List Event × PyResult
  | [] => ([], PyResult.loopPending)
  | s :: rest =>
    match s with
    | ButtonSample.pressedHeld => triggerSeq delay user
    | ButtonSample.pressedNotHeld =>
      let r := pollLoop delay user rest
      (iterSleep ButtonSample.pressedNotHeld :: r.fst, r.snd)
    | ButtonSample.notPressed =>
      let r := pollLoop delay user rest
      (iterSleep ButtonSample.notPressed :: r.fst, r.snd)

/-- Body of `main` (lines 26-64) with `os.environ.has_key` read as the
membership test it was written to be: check and parse the delay variable,
check the user variable (missing either one prints the diagnostic and calls
`sys.exit(1)` before any device is constructed), construct the button
(active-low, hold 600 ms) and the heartbeat output (active-high, initial
value True), switch the heartbeat on, and enter the poll loop. -/
def mainBody (env : Env) (samples : List ButtonSample) : List Event × PyResult :=
  if has_key env kpkill_delay then
    match pyInt ((env.lookup kpkill_delay).getD "") with
    | Except.error e => ([], PyResult.uncaught e)
    | Except.ok delay =>
      if has_key env kpkill_user then
        let user := (env.lookup kpkill_user).getD ""
        let r := pollLoop delay user samples
        (Event.buttonInit shutdown_pin false shutdown_pulse_minimum ::
         Event.outputInit mcu_running_pin true true ::
         Event.outputOn mcu_running_pin :: r.fst, r.snd)
      else
        ([Event.printed (kpkill_user ++ " environment variable not defined, quitting")],
         PyResult.exited 1)
  else
    ([Event.printed (kpkill_delay ++ " environment variable not defined, quitting")],
     PyResult.exited 1)

/-- Attribute names that `os.environ` (an `os._Environ`, a
`collections.abc.MutableMapping`) offers under Python 3, the interpreter
named by the shebang of the script.  The Python 2 `dict.has_key` method was
removed in Python 3 and is not among them. -/
def py3EnvironMethods : List String :=
  ["__getitem__", "__setitem__", "__delitem__", "__iter__", "__len__",
   "__contains__", "__eq__", "__ne__", "__repr__", "get", "keys", "items",
   "values", "pop", "popitem", "clear", "update", "setdefault", "copy",
   "encodekey", "decodekey", "encodevalue", "decodevalue"]

/-- Attribute lookup as Python 3 performs it: a name outside the attribute
set of the object raises AttributeError. -/
def py3GetAttr (methods : List String) (attr : String) : Except PyError Unit :=
  if attr ∈ methods then Except.ok ()
  else Except.error (PyError.attributeError attr)

/-- Entry into `main` under the Python 3 interpreter named by the shebang:
the first statement (line 26) evaluates the attribute `has_key` on
`os.environ` before anything else runs; only if that lookup succeeded would
the body proceed. -/
def py3Main (env : Env) (samples : List ButtonSample) : List Event × PyResult :=
  match py3GetAttr py3EnvironMethods "has_key" with
  | Except.ok _ => mainBody env samples
  | Except.error e => ([], PyResult.uncaught e)

/-- Possible reports of one detector sample. -/
inductive SampleResult
  | Inactive
  | ActiveNotYetHeld
  | ActiveHeld
  deriving DecidableEq

/-- Modelled from the spec: the transient state of the Hold-Duration
Detector.  The hold-detection implementation lives in the external gpiozero
library (the script only configures `gpiozero.Button` with
`hold_time = shutdown_pulse_minimum / 1000.0` and reads `is_pressed` and
`is_held`), so the detector is modelled from the contract of section 4.1 of
the spec: `active_since` records the timestamp of the Inactive-to-Active
transition and is cleared on any inactive sample. -/
structure DetectorState where
  active_since : Option Nat
  deriving DecidableEq

/-- Modelled from the spec: one detector sample at simulated time `now`
(milliseconds) with polarity already applied (`lineActive` true means
shutdown requested).  On an active sample the timestamp of the start of the
continuous active span is kept (recorded now if the previous sample was
inactive), and `ActiveHeld` is reported exactly when the elapsed time since
that start has reached `minHold` milliseconds; on an inactive sample the
state is cleared and `Inactive` is reported. -/
def sample (minHold : Nat) (st : DetectorState) (now : Nat) (lineActive : Bool) :
    DetectorState × SampleResult :=
  if lineActive then
    let since := st.active_since.getD now
    (⟨some since⟩,
     if minHold ≤ now - since then SampleResult.ActiveHeld
     else SampleResult.ActiveNotYetHeld)
  else
    (⟨none⟩, SampleResult.Inactive)

/-- Modelled from the spec: run the detector over a list of
(timestamp, line level) samples, reporting each sample in turn. -/
def runDetector (minHold : Nat) : DetectorState → List (Nat × Bool) → List SampleResult
  | _, [] => []
  | st, (now, lvl) :: rest =>
    let r := sample minHold st now lvl
    r.snd :: runDetector minHold r.fst rest

/-- State of the detector after consuming a list of samples. -/
def detectorFinal (minHold : Nat) : DetectorState → List (Nat × Bool) → DetectorState
  | st, [] => st
  | st, (now, lvl) :: rest => detectorFinal minHold (sample minHold st now lvl).fst rest

/-! Helper lemmas. -/

theorem runDetector_append (minHold : Nat) (st : DetectorState)
    (l1 l2 : List (Nat × Bool)) :
    runDetector minHold st (l1 ++ l2) =
      runDetector minHold st l1 ++ runDetector minHold (detectorFinal minHold st l1) l2 := by
  induction l1 generalizing st with
  | nil => simp [runDetector, detectorFinal]
  | cons p rest ih =>
    obtain ⟨now, lvl⟩ := p
    simp [runDetector, detectorFinal, ih]

theorem runDetector_active_span (minHold a : Nat) (ts : List Nat) :
    runDetector minHold ⟨some a⟩ (ts.map (fun t => (t, true))) =
      ts.map (fun t =>
        if minHold ≤ t - a then SampleResult.ActiveHeld
        else SampleResult.ActiveNotYetHeld) := by
  induction ts with
  | nil => rfl
  | cons t rest ih => simp [runDetector, sample, ih]

theorem detectorFinal_active_span (minHold a : Nat) (ts : List Nat) :
    detectorFinal minHold ⟨some a⟩ (ts.map (fun t => (t, true))) = ⟨some a⟩ := by
  induction ts with
  | nil => rfl
  | cons t rest ih => simp [detectorFinal, sample, ih]

theorem runDetector_fresh_span (minHold t0 : Nat) (ts : List Nat) :
    runDetector minHold ⟨none⟩ ((t0 :: ts).map (fun t => (t, true))) =
      (t0 :: ts).map (fun t =>
        if minHold ≤ t - t0 then SampleResult.ActiveHeld
        else SampleResult.ActiveNotYetHeld) := by
  simp [runDetector, sample, runDetector_active_span]

theorem detectorFinal_fresh_span (minHold t0 : Nat) (ts : List Nat) :
    detectorFinal minHold ⟨none⟩ ((t0 :: ts).map (fun t => (t, true))) = ⟨some t0⟩ := by
  simp [detectorFinal, sample, detectorFinal_active_span]

theorem pollLoop_no_held (delay : Int) (user : String) (samples : List ButtonSample)
    (h : ∀ s ∈ samples, s ≠ ButtonSample.pressedHeld) :
    pollLoop delay user samples = (samples.map iterSleep, PyResult.loopPending) := by
  induction samples with
  | nil => rfl
  | cons s rest ih =>
    have hs : s ≠ ButtonSample.pressedHeld := h s (List.mem_cons_self s rest)
    have hrest : ∀ x ∈ rest, x ≠ ButtonSample.pressedHeld :=
      fun x hx => h x (List.mem_cons_of_mem s hx)
    cases s with
    | pressedHeld => exact absurd rfl hs
    | notPressed => simp [pollLoop, ih hrest]
    | pressedNotHeld => simp [pollLoop, ih hrest]

theorem pollLoop_held_split (delay : Int) (user : String) (pre post : List ButtonSample)
    (hpre : ∀ s ∈ pre, s ≠ ButtonSample.pressedHeld) :
    pollLoop delay user (pre ++ ButtonSample.pressedHeld :: post) =
      (pre.map iterSleep ++ (triggerSeq delay user).fst, (triggerSeq delay user).snd) := by
  induction pre with
  | nil => simp [pollLoop]
  | cons s rest ih =>
    have hs : s ≠ ButtonSample.pressedHeld := hpre s (List.mem_cons_self s rest)
    have hrest : ∀ x ∈ rest, x ≠ ButtonSample.pressedHeld :=
      fun x hx => hpre x (List.mem_cons_of_mem s hx)
    cases s with
    | pressedHeld => exact absurd rfl hs
    | notPressed => simp [pollLoop, ih hrest]
    | pressedNotHeld => simp [pollLoop, ih hrest]

theorem triggerSeq_no_output_off (delay : Int) (user : String) (p : Nat) :
    Event.outputOff p ∉ (triggerSeq delay user).fst := by
  unfold triggerSeq
  split <;> simp

theorem pollLoop_no_output_off (delay : Int) (user : String)
    (samples : List ButtonSample) (p : Nat) :
    Event.outputOff p ∉ (pollLoop delay user samples).fst := by
  induction samples with
  | nil => simp [pollLoop]
  | cons s rest ih =>
    cases s with
    | pressedHeld => exact triggerSeq_no_output_off delay user p
    | notPressed => simp [pollLoop, iterSleep, ih]
    | pressedNotHeld => simp [pollLoop, iterSleep, ih]

theorem pkill_ne_poweroff (user : String) : pkillCmd user ≠ poweroffCmd := by
  intro h
  have hdata : (pkillCmd user).data = poweroffCmd.data := by rw [h]
  have h9 : (pkillCmd user).data[9]? = poweroffCmd.data[9]? := by
    rw [hdata]
  have hfix : (pkillCmd user).data[9]? = some 'p' := by
    show (("/usr/bin/pkill -u " ++ user) ++ " opencpn").data[9]? = some 'p'
    rw [String.data_append, String.data_append, List.append_assoc]
    rw [List.getElem?_append_left (by decide)]
    decide
  rw [hfix] at h9
  have hs9 : poweroffCmd.data[9]? = some 's' := by decide
  rw [hs9] at h9
  exact absurd (Option.some.inj h9) (by decide)

theorem poweroff_not_in_sleeps (pre : List ButtonSample) :
    Event.system poweroffCmd ∉ pre.map iterSleep := by
  intro h
  obtain ⟨s, _, heq⟩ := List.mem_map.mp h
  cases s <;> simp [iterSleep] at heq

/-! Concrete environments used by counterexamples and witnesses. -/

/-- Environment defining only the user variable; the delay variable is
missing. -/
def envNoDelay : Env :=
  ⟨fun k => if k = kpkill_user then some "pi" else none⟩

/-- Well-formed environment: delay 3, user pi. -/
def envW : Env :=
  ⟨fun k =>
    if k = kpkill_delay then some "3"
    else if k = kpkill_user then some "pi" else none⟩

/-- Environment that additionally defines hypothetical pin and hold keys. -/
def envA : Env :=
  ⟨fun k =>
    if k = kpkill_delay then some "5"
    else if k = kpkill_user then some "alice"
    else if k = "SHUTDOWN_PIN" then some "7"
    else if k = "MIN_HOLD_MS" then some "50" else none⟩

/-- Environment disagreeing with `envA` on every key it defines. -/
def envB : Env :=
  ⟨fun k =>
    if k = kpkill_delay then some "2"
    else if k = kpkill_user then some "bob"
    else if k = "SHUTDOWN_PIN" then some "13"
    else if k = "MIN_HOLD_MS" then some "950" else none⟩

/-! Claim theorems. -/

/-- C1: once the hold is recognized, the run consists of the sleeps of the
earlier non-triggering iterations followed by exactly the shutdown sequence:
the termination request (`pkill`, issued unconditionally, its process-match
result ignored), then the grace sleep of the configured duration, then the
power-off, then `sys.exit(0)`; the samples after the trigger contribute
nothing (the loop never resumes), and the power-off occurs exactly once. -/
theorem shutdown_sequence_once (delay : Int) (user : String)
    (pre post : List ButtonSample)
    (hpre : ∀ s ∈ pre, s ≠ ButtonSample.pressedHeld) (hdelay : 0 ≤ delay) :
    pollLoop delay user (pre ++ ButtonSample.pressedHeld :: post) =
      (pre.map iterSleep ++
        [Event.printed heldMsg, Event.system (pkillCmd user),
         Event.sleptMs (1000 * delay.toNat), Event.system poweroffCmd],
       PyResult.exited 0) ∧
    (pollLoop delay user (pre ++ ButtonSample.pressedHeld :: post)).fst.count
      (Event.system poweroffCmd) = 1 := by
  have htrig : triggerSeq delay user =
      ([Event.printed heldMsg, Event.system (pkillCmd user),
        Event.sleptMs (1000 * delay.toNat), Event.system poweroffCmd],
       PyResult.exited 0) := by
    unfold triggerSeq
    rw [if_neg (by omega)]
  have hsplit := pollLoop_held_split delay user pre post hpre
  rw [htrig] at hsplit
  refine ⟨hsplit, ?_⟩
  rw [hsplit]
  simp only [List.count_append]
  rw [List.count_eq_zero.mpr (poweroff_not_in_sleeps pre)]
  simp [List.count_cons, pkill_ne_poweroff user]

theorem shutdown_sequence_once_witness :
    (∀ s ∈ [ButtonSample.notPressed], s ≠ ButtonSample.pressedHeld) ∧
    (0 : Int) ≤ 2 ∧
    (pollLoop 2 "pi" ([ButtonSample.notPressed] ++ ButtonSample.pressedHeld :: []) =
       ([Event.sleptMs 1000, Event.printed heldMsg, Event.system (pkillCmd "pi"),
         Event.sleptMs 2000, Event.system poweroffCmd], PyResult.exited 0) ∧
     (pollLoop 2 "pi"
         ([ButtonSample.notPressed] ++ ButtonSample.pressedHeld :: [])).fst.count
       (Event.system poweroffCmd) = 1) :=
  ⟨by decide, by decide,
   shutdown_sequence_once 2 "pi" [ButtonSample.notPressed] [] (by decide) (by decide)⟩

/-- C2: over a continuous active span sampled at times `t0, ts` the detector
reports `ActiveHeld` at exactly the samples whose elapsed time since the
start of the span has reached `minHold`, and `ActiveNotYetHeld` at every
earlier sample of the span. -/
theorem detector_hold_boundary (minHold t0 : Nat) (ts : List Nat) :
    runDetector minHold ⟨none⟩ ((t0 :: ts).map (fun t => (t, true))) =
      (t0 :: ts).map (fun t =>
        if minHold ≤ t - t0 then SampleResult.ActiveHeld
        else SampleResult.ActiveNotYetHeld) :=
  runDetector_fresh_span minHold t0 ts

/-- C3: an active span in which every sample is strictly earlier than
`minHold` after the start, one inactive sample, and a second such span never
report `ActiveHeld`; and any inactive sample clears the state and reports
`Inactive` regardless of prior state. -/
theorem detector_single_inactive_resets (minHold : Nat) (hpos : 0 < minHold)
    (t0 u u0 : Nat) (ts us : List Nat)
    (h1 : ∀ t ∈ ts, t - t0 < minHold) (h2 : ∀ t ∈ us, t - u0 < minHold)
    (st : DetectorState) (now : Nat) :
    SampleResult.ActiveHeld ∉
      runDetector minHold ⟨none⟩
        ((t0 :: ts).map (fun t => (t, true)) ++
          (u, false) :: (u0 :: us).map (fun t => (t, true))) ∧
    sample minHold st now false = (⟨none⟩, SampleResult.Inactive) := by
  constructor
  · rw [runDetector_append, runDetector_fresh_span, detectorFinal_fresh_span]
    have hstep : runDetector minHold ⟨some t0⟩
        ((u, false) :: (u0 :: us).map (fun t => (t, true))) =
        SampleResult.Inactive ::
          (u0 :: us).map (fun t =>
            if minHold ≤ t - u0 then SampleResult.ActiveHeld
            else SampleResult.ActiveNotYetHeld) := by
      show runDetector minHold ⟨some t0⟩
          ((u, false) :: (u0 :: us).map (fun t => (t, true))) = _
      rw [runDetector]
      simp only [sample, if_false, Bool.false_eq_true]
      rw [runDetector_fresh_span]
    rw [hstep]
    intro hmem
    rcases List.mem_append.mp hmem with hmem1 | hmem2
    · rcases List.mem_map.mp hmem1 with ⟨t, ht, heq⟩
      have hlt : t - t0 < minHold := by
        rcases List.mem_cons.mp ht with rfl | htts
        · omega
        · exact h1 t htts
      rw [if_neg (Nat.not_le.mpr hlt)] at heq
      exact SampleResult.noConfusion heq
    · rcases List.mem_cons.mp hmem2 with heq | hmem3
      · exact SampleResult.noConfusion heq
      · rcases List.mem_map.mp hmem3 with ⟨t, ht, heq⟩
        have hlt : t - u0 < minHold := by
          rcases List.mem_cons.mp ht with rfl | htus
          · omega
          · exact h2 t htus
        rw [if_neg (Nat.not_le.mpr hlt)] at heq
        exact SampleResult.noConfusion heq
  · simp [sample]

theorem detector_single_inactive_resets_witness :
    (0 : Nat) < 600 ∧ (∀ t ∈ [599], t - 0 < 600) ∧ (∀ t ∈ [1299], t - 700 < 600) ∧
    (SampleResult.ActiveHeld ∉
       runDetector 600 ⟨none⟩
         (([0, 599].map (fun t => (t, true))) ++
           (620, false) :: ([700, 1299].map (fun t => (t, true)))) ∧
     sample 600 ⟨some 5⟩ 1000000 false = (⟨none⟩, SampleResult.Inactive)) :=
  ⟨by decide, by decide, by decide,
   detector_single_inactive_resets 600 (by decide) 0 620 700 [599] [1299]
     (by decide) (by decide) ⟨some 5⟩ 1000000⟩

/-- C4 counterexample: a run in which the power-off command is issued and
returns (the embedded `os.system` always returns, and the power-off is the
last event before the exit) ends with `sys.exit(0)`: exit status zero, not a
non-zero status. -/
theorem poweroff_exit_status_cex :
    (pollLoop 1 "opencpn" [ButtonSample.pressedHeld]).snd = PyResult.exited 0 ∧
    (pollLoop 1 "opencpn" [ButtonSample.pressedHeld]).fst.getLast? =
      some (Event.system poweroffCmd) :=
  ⟨rfl, rfl⟩

/-- C4 amended: when the power-off call returns, the process terminates with
exit status 0 (the same status as every successful path, not a distinct
non-zero status, and with no failure report), and the power-off is issued
exactly once, never retried: it is the final event of the run. -/
theorem poweroff_return_ignored (delay : Int) (user : String) (hdelay : 0 ≤ delay) :
    (triggerSeq delay user).snd = PyResult.exited 0 ∧
    (triggerSeq delay user).fst.getLast? = some (Event.system poweroffCmd) ∧
    (triggerSeq delay user).fst.count (Event.system poweroffCmd) = 1 := by
  unfold triggerSeq
  rw [if_neg (by omega)]
  refine ⟨rfl, rfl, ?_⟩
  simp [List.count_cons, pkill_ne_poweroff user]

theorem poweroff_return_ignored_witness :
    (0 : Int) ≤ 3 ∧
    ((triggerSeq 3 "pi").snd = PyResult.exited 0 ∧
     (triggerSeq 3 "pi").fst.getLast? = some (Event.system poweroffCmd) ∧
     (triggerSeq 3 "pi").fst.count (Event.system poweroffCmd) = 1) :=
  ⟨by decide, poweroff_return_ignored 3 "pi" (by decide)⟩

/-- C5 counterexample: with the configured value 1 the grace pause emitted
between the termination request and the power-off is 1000 milliseconds, not
the 1 millisecond the claim requires. -/
theorem grace_unit_cex :
    (triggerSeq 1 "pi").fst =
      [Event.printed heldMsg, Event.system (pkillCmd "pi"),
       Event.sleptMs 1000, Event.system poweroffCmd] ∧ (1000 : Nat) ≠ 1 :=
  ⟨rfl, by decide⟩

/-- C5 amended: the configured value is interpreted in seconds
(`time.sleep` takes seconds): for every configured value `g` the pause
between the termination request and the power-off is `g` seconds, that is
`1000 * g` milliseconds. -/
theorem grace_period_in_seconds (g : Nat) (user : String) :
    triggerSeq (g : Int) user =
      ([Event.printed heldMsg, Event.system (pkillCmd user),
        Event.sleptMs (1000 * g), Event.system poweroffCmd], PyResult.exited 0) := by
  unfold triggerSeq
  rw [if_neg (by omega)]
  norm_num [Int.toNat_ofNat]

/-- C6: at the failing input (an environment missing the delay variable,
under the Python 3 interpreter named by the shebang) the run raises
AttributeError at the very first configuration check, with an empty event
trace: the documented diagnostic of line 29 is never printed and
`sys.exit(1)` is never reached, although no hardware line is touched either.
The second conjunct shows the intended behaviour those lines encode (the
diagnostic print and `sys.exit(1)` under the dictionary-membership reading
of `has_key`), which is what the claim describes. -/
theorem config_missing_key_py3_crash :
    py3Main envNoDelay [] =
      ([], PyResult.uncaught (PyError.attributeError "has_key")) ∧
    mainBody envNoDelay [] =
      ([Event.printed (kpkill_delay ++ " environment variable not defined, quitting")],
       PyResult.exited 1) :=
  ⟨rfl, rfl⟩

/-- C7: on every non-triggering cycle the emitted sleep is recomputed from
that cycle's sample: 1000 ms after a not-pressed sample and
`shutdown_wait_delay` = 20 ms after a pressed-but-not-yet-held sample. -/
theorem adaptive_poll_interval (delay : Int) (user : String)
    (samples : List ButtonSample)
    (h : ∀ s ∈ samples, s ≠ ButtonSample.pressedHeld) :
    (pollLoop delay user samples).fst = samples.map iterSleep ∧
    iterSleep ButtonSample.notPressed = Event.sleptMs 1000 ∧
    iterSleep ButtonSample.pressedNotHeld = Event.sleptMs 20 := by
  refine ⟨?_, rfl, rfl⟩
  rw [pollLoop_no_held delay user samples h]

theorem adaptive_poll_interval_witness :
    (∀ s ∈ [ButtonSample.notPressed, ButtonSample.pressedNotHeld],
       s ≠ ButtonSample.pressedHeld) ∧
    ((pollLoop 4 "pi" [ButtonSample.notPressed, ButtonSample.pressedNotHeld]).fst =
       [Event.sleptMs 1000, Event.sleptMs 20] ∧
     iterSleep ButtonSample.notPressed = Event.sleptMs 1000 ∧
     iterSleep ButtonSample.pressedNotHeld = Event.sleptMs 20) :=
  ⟨by decide,
   adaptive_poll_interval 4 "pi"
     [ButtonSample.notPressed, ButtonSample.pressedNotHeld] (by decide)⟩

/-- C8: with a well-formed configuration the trace starts with the device
constructions followed immediately by switching the heartbeat on, and no
event of the whole run (loop and shutdown sequence included) ever switches
any output off. -/
theorem heartbeat_asserted_never_deasserted (env : Env)
    (samples : List ButtonSample) (ds u : String) (delay : Int) (p : Nat)
    (hd : env.lookup kpkill_delay = some ds) (hp : pyInt ds = Except.ok delay)
    (hu : env.lookup kpkill_user = some u) :
    (mainBody env samples).fst =
      Event.buttonInit shutdown_pin false shutdown_pulse_minimum ::
      Event.outputInit mcu_running_pin true true ::
      Event.outputOn mcu_running_pin :: (pollLoop delay u samples).fst ∧
    Event.outputOff p ∉ (mainBody env samples).fst := by
  have hmain : mainBody env samples =
      (Event.buttonInit shutdown_pin false shutdown_pulse_minimum ::
       Event.outputInit mcu_running_pin true true ::
       Event.outputOn mcu_running_pin :: (pollLoop delay u samples).fst,
       (pollLoop delay u samples).snd) := by
    simp [mainBody, has_key, hd, hp, hu]
  refine ⟨by rw [hmain], ?_⟩
  rw [hmain]
  intro hmem
  simp only [List.mem_cons] at hmem
  rcases hmem with h1 | h1 | h1 | h1
  · exact Event.noConfusion h1
  · exact Event.noConfusion h1
  · exact Event.noConfusion h1
  · exact pollLoop_no_output_off delay u samples p h1

theorem heartbeat_witness :
    (envW.lookup kpkill_delay = some "3" ∧ pyInt "3" = Except.ok 3 ∧
     envW.lookup kpkill_user = some "pi") ∧
    ((mainBody envW [ButtonSample.notPressed]).fst =
       Event.buttonInit shutdown_pin false shutdown_pulse_minimum ::
       Event.outputInit mcu_running_pin true true ::
       Event.outputOn mcu_running_pin ::
         (pollLoop 3 "pi" [ButtonSample.notPressed]).fst ∧
     Event.outputOff mcu_running_pin ∉ (mainBody envW [ButtonSample.notPressed]).fst) :=
  ⟨⟨rfl, rfl, rfl⟩,
   heartbeat_asserted_never_deasserted envW [ButtonSample.notPressed] "3" "pi" 3
     mcu_running_pin rfl rfl rfl⟩

/-- C9 counterexample: the shutdown pin and the minimum hold duration in the
emitted button construction are 22 and 600 under two environments that
disagree on every key they define (including hypothetical pin and hold
keys): those values are fixed by the program, not taken from
configuration. -/
theorem config_pins_fixed_cex :
    (mainBody envA []).fst.head? = some (Event.buttonInit 22 false 600) ∧
    (mainBody envB []).fst.head? = some (Event.buttonInit 22 false 600) ∧
    envA.lookup "SHUTDOWN_PIN" ≠ envB.lookup "SHUTDOWN_PIN" ∧
    envA.lookup "MIN_HOLD_MS" ≠ envB.lookup "MIN_HOLD_MS" :=
  ⟨rfl, rfl, by decide, by decide⟩

/-- C9 amended: the environment supplies exactly two operating parameters,
the post-kill delay and the target user; the shutdown pin (22), its polarity
(active-low) and hold duration (600 ms), and the running pin (23) are
constants fixed by the program. -/
theorem config_two_params_only (env : Env) (samples : List ButtonSample)
    (ds u : String) (delay : Int)
    (hd : env.lookup kpkill_delay = some ds) (hp : pyInt ds = Except.ok delay)
    (hu : env.lookup kpkill_user = some u) :
    mainBody env samples =
      (Event.buttonInit shutdown_pin false shutdown_pulse_minimum ::
       Event.outputInit mcu_running_pin true true ::
       Event.outputOn mcu_running_pin :: (pollLoop delay u samples).fst,
       (pollLoop delay u samples).snd) := by
  simp [mainBody, has_key, hd, hp, hu]

theorem config_two_params_only_witness :
    (envW.lookup kpkill_delay = some "3" ∧ pyInt "3" = Except.ok 3 ∧
     envW.lookup kpkill_user = some "pi") ∧
    mainBody envW [] =
      (Event.buttonInit shutdown_pin false shutdown_pulse_minimum ::
       Event.outputInit mcu_running_pin true true ::
       Event.outputOn mcu_running_pin :: (pollLoop 3 "pi" []).fst,
       (pollLoop 3 "pi" []).snd) :=
  ⟨⟨rfl, rfl, rfl⟩, config_two_params_only envW [] "3" "pi" 3 rfl rfl rfl⟩

/-- C10: under the Python 3 interpreter named by the shebang, every call of
`main` — whatever the environment and the button samples, a fully populated
environment included — raises AttributeError at the first configuration
check, with an empty event trace: no diagnostic print, no `sys.exit(1)`, no
hardware line opened, and the poll loop is never entered. -/
theorem py3_main_attribute_error (env : Env) (samples : List ButtonSample) :
    py3Main env samples =
      ([], PyResult.uncaught (PyError.attributeError "has_key")) := rfl

end PowerMonitor
